import Mathlib

/-!
Verification of the mutex algorithm of pthreads-win32 (`mutex.c`).

The C operations `pthread_mutex_init`, `pthread_mutex_destroy`,
`pthread_mutex_lock`, `pthread_mutex_trylock`, `pthread_mutex_unlock` and
`pthread_mutexattr_init` are shallowly embedded as pure Lean functions over an
explicit mutex-record state.  A mutex handle (`pthread_mutex_t *`) points to a
slot whose stored value is one of: NULL (`HandleVal.empty`), the static
auto-initialisation sentinel `PTW32_OBJECT_AUTO_INIT` (`HandleVal.autoInit`),
or a live record (`HandleVal.live`).

The slot-access macros `PTW32_OBJECT_GET` / `PTW32_OBJECT_SET` /
`PTW32_OBJECT_TRYGET` live in `implement.h`, which is not part of the sources
here; they are modelled from the spec's HandleSlot contract (§4.1): `GET`
acquires exclusive access and yields the stored value, `SET` stores a new
value and releases.  Consequently each span of code between a `GET` and the
matching `SET` executes atomically with respect to other threads, and the
observable states of a handle are exactly the values stored at `SET`
boundaries.  The step relation `MStep` below has one constructor per such
release point of the C code.

Memory allocation (`calloc`) is modelled by a boolean environment parameter
`alloc`: `true` means the allocation succeeds.  `pthread_self()` is an opaque
thread token compared only for equality, modelled as `Tid`.
-/

namespace PthreadsWin32

/-- Thread identity token returned by `pthread_self`; opaque, compared only
for equality. -/
abbrev Tid := Nat

/-- The C `errno`-style result codes returned by the mutex operations. -/
inductive Errno where
  | ok
  | EINVAL
  | ENOMEM
  | ENOSYS
  | EBUSY
  | EDEADLK
  | EPERM
  deriving DecidableEq

/-- The mutex kind constants `PTHREAD_MUTEX_NORMAL`, `PTHREAD_MUTEX_ERRORCHECK`,
`PTHREAD_MUTEX_RECURSIVE`, `PTHREAD_MUTEX_DEFAULT`. -/
inductive MutexKind where
  | Normal
  | ErrorCheck
  | Recursive
  | Default
  deriving DecidableEq

/-- `PTHREAD_PROCESS_PRIVATE` / `PTHREAD_PROCESS_SHARED`. -/
inductive PShared where
  | Private
  | Shared
  deriving DecidableEq

/-- A mutex attributes record (`struct pthread_mutexattr_t_`): fields `pshared`
and `type`. -/
structure MutexAttr where
  pshared : PShared
  type : MutexKind
  deriving DecidableEq

/-- The mutex record (`struct pthread_mutex_t_`), fields named as in the C
source.  `lock_idx` is the signed lock counter (-1 = unlocked, k ≥ 0 = k+1
holds); `try_lock` is the trylock-in-progress guard counter; `waiters` counts
recorded waiting threads; `owner` / `lastOwner` / `lastWaiter` are thread
tokens or NULL (`none`). -/
structure MutexRec where
  lock_idx : Int
  try_lock : Int
  owner : Option Tid
  waiters : Int
  lastOwner : Option Tid
  lastWaiter : Option Tid
  type : MutexKind
  pshared : PShared
  deriving DecidableEq

/-- The value stored in a mutex handle slot: NULL, the static-initialiser
sentinel `PTW32_OBJECT_AUTO_INIT`, or a pointer to a live record. -/
inductive HandleVal where
  | empty
  | autoInit
  | live (mx : MutexRec)
  deriving DecidableEq

/-- Modelled from the spec: the constant `ptw32_mutex_mapped_default` is
declared in `implement.h`, which is absent from the sources; per the spec
(§3, §4.2) `PTHREAD_MUTEX_DEFAULT` maps to `PTHREAD_MUTEX_RECURSIVE` at
mutex creation. -/
def ptw32_mutex_mapped_default : MutexKind := .Recursive

/-- The fresh record built by `pthread_mutex_init` (mutex.c:106-129): type and
pshared come from the supplied attributes (with `Default` mapped through
`ptw32_mutex_mapped_default`) when `attr != NULL && *attr != NULL`, else the
defaults; all other fields are cleared with `lock_idx = -1`.
`attr : Option (Option MutexAttr)` models the double indirection: the outer
`none` is `attr == NULL`, the inner is `*attr == NULL`. -/
def initRecord (attr : Option (Option MutexAttr)) : MutexRec :=
  match attr with
  | some (some a) =>
      { lock_idx := -1, try_lock := 0, owner := none, waiters := 0,
        lastOwner := none, lastWaiter := none,
        type := if a.type = .Default then ptw32_mutex_mapped_default else a.type,
        pshared := a.pshared }
  | _ =>
      { lock_idx := -1, try_lock := 0, owner := none, waiters := 0,
        lastOwner := none, lastWaiter := none,
        type := ptw32_mutex_mapped_default, pshared := .Private }

/-- Whether the `ENOSYS` guard of `pthread_mutex_init` fires (mutex.c:70-73):
`attr != NULL && *attr != NULL && (*attr)->pshared == PTHREAD_PROCESS_SHARED`. -/
def attrIsShared (attr : Option (Option MutexAttr)) : Bool :=
  match attr with
  | some (some a) => a.pshared = .Shared
  | _ => false

/-- Core of `pthread_mutex_init` (mutex.c:60-141) acting on the value stored
in a non-NULL handle.  The `ENOSYS` return happens before the slot is
acquired, leaving the stored value untouched.  Otherwise the old value is
discarded: on allocation success the fresh record is stored; on `calloc`
failure (`alloc = false`) the code jumps to `FAIL0` with `mx == NULL`, so
`PTW32_OBJECT_SET` stores NULL. -/
def mutex_init (alloc : Bool) (attr : Option (Option MutexAttr)) (v : HandleVal) :
    Errno × HandleVal :=
  if attrIsShared attr then (.ENOSYS, v)
  else if alloc then (.ok, .live (initRecord attr))
  else (.ENOMEM, .empty)

/-- Core of `pthread_mutex_destroy` (mutex.c:166-245) acting on the stored
value:  NULL → `EINVAL` (stored value rewritten with the same NULL);
sentinel → success, NULL stored (mutex.c:226-233); live record with an owner
→ `EBUSY`, record intact; live record without owner → freed, NULL stored. -/
def mutex_destroy (v : HandleVal) : Errno × HandleVal :=
  match v with
  | .empty => (.EINVAL, .empty)
  | .autoInit => (.ok, .empty)
  | .live mx =>
      if mx.owner ≠ none then (.EBUSY, .live mx)
      else (.ok, .empty)

/-- Core of `pthread_mutex_unlock` (mutex.c:975-1050) acting on the stored
value.  NULL → `EINVAL`.  If the record is the sentinel or `owner` is not the
caller → `EPERM` with the record unchanged.  Otherwise: `Normal`/`ErrorCheck`
clear `owner` unconditionally; `Recursive` and the `default:` case clear it
only when `lock_idx == 0`; then `lock_idx` is decremented (mutex.c:1015-1034). -/
def mutex_unlock (self : Tid) (v : HandleVal) : Errno × HandleVal :=
  match v with
  | .empty => (.EINVAL, .empty)
  | .autoInit => (.EPERM, .autoInit)
  | .live mx =>
      if mx.owner = some self then
        let mx1 :=
          match mx.type with
          | .Normal | .ErrorCheck => { mx with owner := none }
          | _ => if mx.lock_idx = 0 then { mx with owner := none } else mx
        (.ok, .live { mx1 with lock_idx := mx1.lock_idx - 1 })
      else (.EPERM, .live mx)

/-- `mx->owner = self; mx->lastOwner = self; mx->lastWaiter = NULL;`
(mutex.c:729-731, 810-812, 882-884): take the lock.  `lock_idx` has already
been incremented by the loop head. -/
def takeLock (t : Tid) (m : MutexRec) : MutexRec :=
  { m with owner := some t, lastOwner := some t, lastWaiter := none }

/-- The `WAIT_*` entry code (mutex.c:746-748, 822-824, 900-902):
`mx->waiters++; mx->lastWaiter = self; mx->lock_idx--;` — record this thread
as a waiter and revert the optimistic increment, immediately before the slot
is released for the sleep. -/
def enterWait (t : Tid) (m : MutexRec) : MutexRec :=
  { m with waiters := m.waiters + 1, lastWaiter := some t,
           lock_idx := m.lock_idx - 1 }

/-- The post-sleep adjustment (mutex.c:768-771, 844-847, 922-925): decrement
`waiters` only when it is still positive. -/
def decWaiters (m : MutexRec) : MutexRec :=
  if 0 < m.waiters then { m with waiters := m.waiters - 1 } else m

/-- Outcome of one iteration of the blocking-lock loop: the call completes
with a result and a final record (`done`), or the thread records itself as a
waiter, releases the slot, and will retry (`wait` carries the record at that
slot release), or the iteration spins forever on `try_lock` (`stuck`; never
happens from a slot-release boundary, where `try_lock = 0`). -/
inductive Iter1 where
  | done (r : Errno) (m : MutexRec)
  | wait (m : MutexRec)
  | stuck
  deriving DecidableEq

/-- One iteration of the `while (TRUE)` loop of `pthread_mutex_lock`
(mutex.c:698-773 for `Recursive`/`Default`, 780-849 for `Normal`, 852-927 for
`ErrorCheck`), parameterised by the branch `b` that the `switch` on
`mx->type` selected at call entry.  The loop head performs the optimistic
increment `++mx->lock_idx`.  If the result is 0 the lock is tentatively ours,
subject to the fairness check (`waiters > 0 && lastOwner == self`): a stale
self-referential `lastWaiter` resets `waiters` to 0 and takes the lock,
otherwise the thread defers and waits.  If the result is nonzero the thread
first spins while `try_lock` is raised, then: `Recursive` relocks when
`owner == self` (keeping the incremented counter), `ErrorCheck` returns
`EDEADLK` when `owner == self` (without reverting the increment), and
otherwise the thread waits. -/
def lockIter (b : MutexKind) (t : Tid) (m : MutexRec) : Iter1 :=
  let m0 : MutexRec := { m with lock_idx := m.lock_idx + 1 }
  if m0.lock_idx = 0 then
    if 0 < m0.waiters ∧ m0.lastOwner = some t then
      if m0.lastWaiter = some t then
        .done .ok (takeLock t { m0 with waiters := 0 })
      else
        .wait (enterWait t m0)
    else
      .done .ok (takeLock t m0)
  else
    if m0.try_lock ≠ 0 then .stuck
    else
      match b with
      | .Normal => .wait (enterWait t m0)
      | .ErrorCheck =>
          if m0.owner = some t then .done .EDEADLK m0
          else .wait (enterWait t m0)
      | _ =>
          if m0.owner = some t then .done .ok (takeLock t m0)
          else .wait (enterWait t m0)

/-- The blocking-lock loop run to completion in the absence of interference
from other threads, with fuel bounding the number of iterations: after a
`wait` release the thread sleeps, reacquires the slot (sequentially: the same
state), conditionally decrements `waiters`, and retries.  `none` means the
call did not complete within `fuel` iterations (or span forever on
`try_lock`). -/
def lockLoop : Nat → MutexKind → Tid → MutexRec → Option (Errno × MutexRec)
  | 0, _, _, _ => none
  | fuel + 1, b, t, m =>
      match lockIter b t m with
      | .done r m' => some (r, m')
      | .wait m' => lockLoop fuel b t (decWaiters m')
      | .stuck => none

/-- Core of `pthread_mutex_lock` (mutex.c:645-945) on the stored value, for a
single-threaded complete run.  NULL → `EINVAL` (and `FAIL0` stores the NULL
back).  The sentinel triggers auto-initialisation via
`pthread_mutex_init(&mx, NULL)` (mutex.c:685-688): on allocation failure the
local `mx` becomes NULL, `ENOMEM` is returned and `FAIL0` stores NULL;
otherwise the fresh default record enters the lock loop and the final record
is stored at `FAIL0`. -/
def mutex_lock (fuel : Nat) (alloc : Bool) (self : Tid) (v : HandleVal) :
    Option (Errno × HandleVal) :=
  match v with
  | .empty => some (.EINVAL, .empty)
  | .autoInit =>
      if alloc then
        let mx := initRecord none
        match lockLoop fuel mx.type self mx with
        | none => none
        | some (r, m') => some (r, .live m')
      else some (.ENOMEM, .empty)
  | .live mx =>
      match lockLoop fuel mx.type self mx with
      | none => none
      | some (r, m') => some (r, .live m')

/-- The guarded body of `pthread_mutex_trylock` after the slot is held and the
record is live (mutex.c:1133-1163): if `mx->lock_idx + 1` is nonzero the
mutex is held and `EBUSY` is returned with the record untouched — even when
the caller itself is the owner.  Otherwise `try_lock` is raised, `lock_idx`
is atomically incremented, ownership is committed when the increment yields
0 (always, in the absence of concurrent increments) or the increment is
reverted with `EBUSY`, and `try_lock` is lowered again. -/
def tryBody (t : Tid) (m : MutexRec) : Errno × HandleVal :=
  if m.lock_idx + 1 = 0 then
    let m1 : MutexRec := { m with try_lock := m.try_lock + 1 }
    let m2 : MutexRec := { m1 with lock_idx := m1.lock_idx + 1 }
    if m2.lock_idx = 0 then
      let m3 := takeLock t m2
      (.ok, .live { m3 with try_lock := m3.try_lock - 1 })
    else
      (.EBUSY, .live { m2 with lock_idx := m2.lock_idx - 1,
                               try_lock := m2.try_lock - 1 })
  else (.EBUSY, .live m)

/-- Core of `pthread_mutex_trylock` (mutex.c:1083-1176) once
`PTW32_OBJECT_TRYGET` has succeeded: NULL → `EINVAL` (this path jumps to
`FAIL0`, past the `SET`, so the stored value is untouched); sentinel →
auto-init as in `mutex_lock`, then the trylock body on the fresh record. -/
def mutex_trylock (alloc : Bool) (self : Tid) (v : HandleVal) : Errno × HandleVal :=
  match v with
  | .empty => (.EINVAL, .empty)
  | .autoInit =>
      if alloc then tryBody self (initRecord none)
      else (.ENOMEM, .empty)
  | .live mx => tryBody self mx

/-- `pthread_mutex_init` on the handle pointer: NULL handle → `EINVAL`
(mutex.c:65-68), otherwise the core operation on the stored value. -/
def pthread_mutex_init (alloc : Bool) (attr : Option (Option MutexAttr))
    (h : Option HandleVal) : Errno × Option HandleVal :=
  match h with
  | none => (.EINVAL, none)
  | some v => let p := mutex_init alloc attr v; (p.1, some p.2)

/-- `pthread_mutex_destroy` on the handle pointer (mutex.c:171-174 for the
NULL check). -/
def pthread_mutex_destroy (h : Option HandleVal) : Errno × Option HandleVal :=
  match h with
  | none => (.EINVAL, none)
  | some v => let p := mutex_destroy v; (p.1, some p.2)

/-- `pthread_mutex_unlock` on the handle pointer (mutex.c:980-983 for the
NULL check). -/
def pthread_mutex_unlock (self : Tid) (h : Option HandleVal) :
    Errno × Option HandleVal :=
  match h with
  | none => (.EINVAL, none)
  | some v => let p := mutex_unlock self v; (p.1, some p.2)

/-- `pthread_mutex_lock` on the handle pointer (mutex.c:650-653 for the NULL
check). -/
def pthread_mutex_lock (fuel : Nat) (alloc : Bool) (self : Tid)
    (h : Option HandleVal) : Option (Errno × Option HandleVal) :=
  match h with
  | none => some (.EINVAL, none)
  | some v =>
      match mutex_lock fuel alloc self v with
      | none => none
      | some (r, v') => some (r, some v')

/-- `pthread_mutex_trylock` on the handle pointer: `slotFree = false` models
`PTW32_OBJECT_TRYGET` failing under contention (mutex.c:1111-1115), returning
`EBUSY` without touching the slot; NULL handle → `EINVAL` (mutex.c:1089-1092). -/
def pthread_mutex_trylock (slotFree alloc : Bool) (self : Tid)
    (h : Option HandleVal) : Errno × Option HandleVal :=
  match h with
  | none => (.EINVAL, none)
  | some v =>
      if slotFree then let p := mutex_trylock alloc self v; (p.1, some p.2)
      else (.EBUSY, some v)

/-- `pthread_mutexattr_init` (mutex.c:273-291).  `alloc` models whether the
`calloc` succeeds.  The C code computes `result` from the allocation but then
performs `ma->pshared = ...; ma->type = ...;` and `*attr = ma;`
unconditionally; when the allocation failed, `ma` is NULL and these writes
dereference a NULL pointer.  That fault is modelled as `none`; a normal
return is `some (result, value stored through the attr pointer)`. -/
def pthread_mutexattr_init (alloc : Bool) : Option (Errno × Option MutexAttr) :=
  let ma : Option MutexAttr :=
    if alloc then some { pshared := .Private, type := .Default } else none
  let result : Errno := if ma = none then .ENOMEM else .ok
  match ma with
  | none => none
  | some m =>
      some (result, some { m with pshared := .Private, type := .Default })

/-- One observable transition of a mutex handle's stored value, i.e. the
effect of one span of code between a HandleSlot acquisition and the matching
release, performed by some thread `t`.  Besides the four complete operations
(init, destroy, unlock, trylock — each a single acquire/release span) the
blocking lock contributes: its first loop iteration from call entry
(`lock_enter_*`, releasing either with the call's final state or at the
`WAIT_*` release point), and a post-sleep iteration of a thread that
previously released inside the wait path (`lock_wake_*`: conditional
`waiters` decrement followed by one loop iteration).  The wake constructors
over-approximate: they allow any branch `b` and any thread, because the model
does not track which threads are asleep inside which branch of the loop;
every transition the code can make is included. -/
inductive MStep : HandleVal → HandleVal → Prop where
  | init_op (alloc : Bool) (attr : Option (Option MutexAttr)) (v : HandleVal) :
      MStep v (mutex_init alloc attr v).2
  | destroy_op (v : HandleVal) :
      MStep v (mutex_destroy v).2
  | unlock_op (t : Tid) (v : HandleVal) :
      MStep v (mutex_unlock t v).2
  | trylock_op (alloc : Bool) (t : Tid) (v : HandleVal) :
      MStep v (mutex_trylock alloc t v).2
  | lock_enter_done (t : Tid) (m : MutexRec) (r : Errno) (m' : MutexRec)
      (h : lockIter m.type t m = .done r m') :
      MStep (.live m) (.live m')
  | lock_enter_wait (t : Tid) (m m' : MutexRec)
      (h : lockIter m.type t m = .wait m') :
      MStep (.live m) (.live m')
  | lock_wake_done (b : MutexKind) (t : Tid) (m : MutexRec) (r : Errno)
      (m' : MutexRec) (h : lockIter b t (decWaiters m) = .done r m') :
      MStep (.live m) (.live m')
  | lock_wake_wait (b : MutexKind) (t : Tid) (m m' : MutexRec)
      (h : lockIter b t (decWaiters m) = .wait m') :
      MStep (.live m) (.live m')

/-- Handle-slot values reachable from a statically declared mutex (the
`PTW32_OBJECT_AUTO_INIT` sentinel) through any interleaving of the five
operations by any threads, observed at HandleSlot release boundaries. -/
inductive Reach : HandleVal → Prop where
  | start : Reach .autoInit
  | step {v v' : HandleVal} (hv : Reach v) (hs : MStep v v') : Reach v'

/-- The per-record part of the spec's claimed invariant, as claimed:
`lockCounter ≥ -1` and `owner` non-empty iff `lockCounter ≥ 0`. -/
def claimedInv (m : MutexRec) : Prop :=
  -1 ≤ m.lock_idx ∧ (m.owner ≠ none ↔ 0 ≤ m.lock_idx)

instance (m : MutexRec) : Decidable (claimedInv m) := by
  unfold claimedInv; infer_instance

/-- The corrected per-record invariant that the code actually maintains:
`lockCounter ≥ -1`, and `owner` non-empty implies `lockCounter ≥ 0` (the
converse fails after an `ErrorCheck` self-relock `EDEADLK`, whose optimistic
increment is not reverted, followed by an unlock). -/
def actualInv (m : MutexRec) : Prop :=
  -1 ≤ m.lock_idx ∧ (m.owner ≠ none → 0 ≤ m.lock_idx)

/-- Lift of a per-record invariant to handle-slot values: constrains only
live records. -/
def onLive (P : MutexRec → Prop) : HandleVal → Prop
  | .live m => P m
  | _ => True

/-- The ErrorCheck attributes used in the C1 counterexample trace. -/
def ecAttr : MutexAttr := { pshared := .Private, type := .ErrorCheck }

/-- ErrorCheck record freshly initialised in the C1 counterexample trace. -/
def ecRec0 : MutexRec := initRecord (some (some ecAttr))

/-- The record after thread 0 takes the fresh ErrorCheck lock. -/
def ecRec1 : MutexRec :=
  { lock_idx := 0, try_lock := 0, owner := some 0, waiters := 0,
    lastOwner := some 0, lastWaiter := none, type := .ErrorCheck,
    pshared := .Private }

/-- The record after thread 0's second `lock` returned `EDEADLK`: the
optimistic increment is not reverted. -/
def ecRec2 : MutexRec :=
  { ecRec1 with lock_idx := 1 }

/-- The record after thread 0 then unlocks: `owner` is cleared and the
counter decremented once, leaving `lock_idx = 0` with no owner. -/
def C1badRec : MutexRec :=
  { lock_idx := 0, try_lock := 0, owner := none, waiters := 0,
    lastOwner := some 0, lastWaiter := none, type := .ErrorCheck,
    pshared := .Private }

/-- A deferral state for the C3 witness: unheld, one recorded waiter,
`lastOwner` is the caller (thread 0) but `lastWaiter` is a different
thread. -/
def C3rec : MutexRec :=
  { lock_idx := -1, try_lock := 0, owner := none, waiters := 1,
    lastOwner := some 0, lastWaiter := some 1, type := .Normal,
    pshared := .Private }

/-- The Recursive attributes used in claim C4. -/
def recAttr : MutexAttr := { pshared := .Private, type := .Recursive }

/-- Process-shared attributes, rejected by init with `ENOSYS`. -/
def shAttr : MutexAttr := { pshared := .Shared, type := .Normal }

/-- The record of a fresh Recursive mutex after `j` nested locks by thread
`t` (meaningful for `j ≥ 1`): `lock_idx = j - 1`, owned by `t`. -/
def lockedSt (t : Tid) (j : Nat) : MutexRec :=
  { lock_idx := (j : Int) - 1, try_lock := 0, owner := some t, waiters := 0,
    lastOwner := some t, lastWaiter := none, type := .Recursive,
    pshared := .Private }

/-- The record of a Recursive mutex after all nested locks by thread `t`
have been released again: unlocked, `lastOwner` still recording `t`. -/
def unlockedSt (t : Tid) : MutexRec :=
  { lock_idx := -1, try_lock := 0, owner := none, waiters := 0,
    lastOwner := some t, lastWaiter := none, type := .Recursive,
    pshared := .Private }

/-- One complete `pthread_mutex_lock` call on a live record that finishes
within a single loop iteration (no waiting). -/
def lockOnce (t : Tid) (m : MutexRec) : Option (Errno × MutexRec) :=
  lockLoop 1 m.type t m

/-- `n` sequential `lock` calls by thread `t`, each required to succeed
without waiting; `none` if any call fails or would wait. -/
def repeatLock (t : Tid) : Nat → MutexRec → Option MutexRec
  | 0, m => some m
  | n + 1, m =>
      match lockOnce t m with
      | some (.ok, m') => repeatLock t n m'
      | _ => none

/-- One complete `pthread_mutex_unlock` call on a live record; `none` if the
record were freed (never happens for unlock). -/
def unlockOnce (t : Tid) (m : MutexRec) : Option (Errno × MutexRec) :=
  match mutex_unlock t (.live m) with
  | (r, .live m') => some (r, m')
  | _ => none

/-- `n` sequential `unlock` calls by thread `t`, each required to succeed. -/
def repeatUnlock (t : Tid) : Nat → MutexRec → Option MutexRec
  | 0, m => some m
  | n + 1, m =>
      match unlockOnce t m with
      | some (.ok, m') => repeatUnlock t n m'
      | _ => none

/-- A freshly initialised record satisfies the actual invariant. -/
theorem initRecord_inv (attr : Option (Option MutexAttr)) :
    actualInv (initRecord attr) := by
  rcases attr with _ | (_ | a) <;> simp [initRecord, actualInv]

/-- `decWaiters` touches only `waiters`. -/
theorem decWaiters_inv {m : MutexRec} (hm : actualInv m) :
    actualInv (decWaiters m) := by
  obtain ⟨h1, h2⟩ := hm
  unfold decWaiters
  split <;> exact ⟨h1, h2⟩

/-- A `done` outcome of a lock-loop iteration preserves the actual invariant. -/
theorem lockIter_done_inv {b : MutexKind} {t : Tid} {m : MutexRec} {r : Errno}
    {m' : MutexRec} (hm : actualInv m) (h : lockIter b t m = .done r m') :
    actualInv m' := by
  obtain ⟨h1, h2⟩ := hm
  cases b <;>
    (unfold lockIter at h
     simp only [] at h
     split_ifs at h <;>
       first
       | exact Iter1.noConfusion h
       | (injection h with hr hme
          subst hme
          refine ⟨?_, fun how => ?_⟩ <;>
            (simp_all only [takeLock, actualInv, ne_eq, Option.some.injEq,
               reduceCtorEq, not_false_eq_true, forall_const] <;> omega))
     )

/-- A `wait` release of a lock-loop iteration preserves the actual invariant:
the optimistic increment has been reverted and `owner` is untouched. -/
theorem lockIter_wait_inv {b : MutexKind} {t : Tid} {m m' : MutexRec}
    (hm : actualInv m) (h : lockIter b t m = .wait m') : actualInv m' := by
  obtain ⟨h1, h2⟩ := hm
  cases b <;>
    (unfold lockIter at h
     simp only [] at h
     split_ifs at h <;>
       first
       | exact Iter1.noConfusion h
       | (injection h with hme
          subst hme
          refine ⟨?_, fun how => ?_⟩
          · simp only [enterWait]
            omega
          · simp only [enterWait] at how ⊢
            have := h2 how
            omega)
     )

/-- The trylock body preserves the actual invariant. -/
theorem tryBody_inv {t : Tid} {m : MutexRec} (hm : actualInv m) :
    onLive actualInv (tryBody t m).2 := by
  obtain ⟨h1, h2⟩ := hm
  unfold tryBody
  simp only []
  split_ifs <;>
    first
    | exact ⟨h1, h2⟩
    | (refine ⟨?_, fun how => ?_⟩ <;>
        (simp_all only [takeLock, onLive, actualInv, ne_eq, Option.some.injEq,
           reduceCtorEq, not_false_eq_true, forall_const] <;> omega))

/-- `pthread_mutex_unlock` preserves the actual invariant on a live record. -/
theorem mutex_unlock_inv (t : Tid) (m : MutexRec) (hm : actualInv m) :
    onLive actualInv (mutex_unlock t (.live m)).2 := by
  obtain ⟨h1, h2⟩ := hm
  by_cases c : m.owner = some t
  · have hidx : 0 ≤ m.lock_idx := h2 (by simp [c])
    have hF1 : actualInv { m with owner := none, lock_idx := m.lock_idx - 1 } :=
      ⟨show -1 ≤ m.lock_idx - 1 by omega, fun how => absurd rfl how⟩
    have hF2 : ¬ m.lock_idx = 0 → actualInv { m with lock_idx := m.lock_idx - 1 } :=
      fun hz => ⟨show -1 ≤ m.lock_idx - 1 by omega,
                 fun _ => show 0 ≤ m.lock_idx - 1 by omega⟩
    simp only [mutex_unlock]
    rw [if_pos c]
    simp only []
    cases htype : m.type <;> simp only []
    · exact hF1
    · exact hF1
    · by_cases hz : m.lock_idx = 0
      · rw [if_pos hz]; exact hF1
      · rw [if_neg hz]; exact hF2 hz
    · by_cases hz : m.lock_idx = 0
      · rw [if_pos hz]; exact hF1
      · rw [if_neg hz]; exact hF2 hz
  · simp only [mutex_unlock]
    rw [if_neg c]
    exact ⟨h1, h2⟩

/-- Every slot-release transition preserves the actual invariant. -/
theorem mstep_inv {v v' : HandleVal} (hv : onLive actualInv v) (hs : MStep v v') :
    onLive actualInv v' := by
  cases hs with
  | init_op alloc attr v =>
      unfold mutex_init
      split_ifs
      · exact hv
      · exact initRecord_inv attr
      · trivial
  | destroy_op v =>
      cases v with
      | empty => trivial
      | autoInit => trivial
      | live m =>
          simp only [mutex_destroy]
          split_ifs with c
          · exact hv
          · trivial
  | unlock_op t v =>
      cases v with
      | empty => trivial
      | autoInit => trivial
      | live m => exact mutex_unlock_inv t m hv
  | trylock_op alloc t v =>
      cases v with
      | empty => trivial
      | autoInit =>
          simp only [mutex_trylock]
          split_ifs
          · exact tryBody_inv (initRecord_inv none)
          · trivial
      | live m => exact tryBody_inv hv
  | lock_enter_done t m r m' h => exact lockIter_done_inv hv h
  | lock_enter_wait t m m' h => exact lockIter_wait_inv hv h
  | lock_wake_done b t m r m' h => exact lockIter_done_inv (decWaiters_inv hv) h
  | lock_wake_wait b t m m' h => exact lockIter_wait_inv (decWaiters_inv hv) h

/-- Claim C1 (amended): every mutex record reachable at operation boundaries
through any sequence of init, lock, trylock, unlock and destroy calls by any
threads satisfies `lockCounter ≥ -1`, and `owner` non-empty implies
`lockCounter ≥ 0`.  The claimed converse — `lockCounter ≥ 0` implies `owner`
non-empty — fails on the code (see `C1_counterexample`): the ErrorCheck
self-relock path returns `EDEADLK` without reverting its optimistic
increment, so a subsequent unlock leaves `lockCounter = 0` with `owner`
empty. -/
theorem C1_mutex_record_invariant {v : HandleVal} (h : Reach v) :
    onLive actualInv v := by
  induction h with
  | start => trivial
  | step hv hs ih => exact mstep_inv ih hs

/-- Witness for `C1_mutex_record_invariant`: a freshly default-initialised
record is reachable and satisfies the invariant. -/
theorem C1_mutex_record_invariant_witness :
    Reach (.live (initRecord none)) ∧ onLive actualInv (.live (initRecord none)) := by
  have hr : Reach (.live (initRecord none)) := by
    have h0 := Reach.step Reach.start (MStep.init_op true none .autoInit)
    simpa [mutex_init, attrIsShared] using h0
  exact ⟨hr, C1_mutex_record_invariant hr⟩

/-- Claim C1 (counterexample): the state reached by the call sequence
init(ErrorCheck), lock, lock (returning Deadlock), unlock — all by thread 0 —
is reachable at an operation boundary yet violates the claimed invariant
"owner is non-empty iff lockCounter ≥ 0": it has `lockCounter = 0` and an
empty owner. -/
theorem C1_counterexample : Reach (.live C1badRec) ∧ ¬ claimedInv C1badRec := by
  constructor
  · have r1 : Reach (.live ecRec0) := by
      have h0 := Reach.step Reach.start (MStep.init_op true (some (some ecAttr)) .autoInit)
      simpa [mutex_init, attrIsShared, ecAttr, ecRec0] using h0
    have r2 : Reach (.live ecRec1) :=
      Reach.step r1 (MStep.lock_enter_done 0 ecRec0 .ok ecRec1 (by decide))
    have r3 : Reach (.live ecRec2) :=
      Reach.step r2 (MStep.lock_enter_done 0 ecRec1 .EDEADLK ecRec2 (by decide))
    have r4 := Reach.step r3 (MStep.unlock_op 0 (.live ecRec2))
    have he : (mutex_unlock 0 (.live ecRec2)).2 = .live C1badRec := by decide
    rwa [he] at r4
  · decide

/-- Evaluation of one ErrorCheck iteration when the caller already owns the
held mutex: `EDEADLK` with the optimistic increment left in place. -/
theorem lockIter_ec_deadlock (t : Tid) (m : MutexRec) (howner : m.owner = some t)
    (hidx : 0 ≤ m.lock_idx) (htry : m.try_lock = 0) :
    lockIter .ErrorCheck t m = .done .EDEADLK { m with lock_idx := m.lock_idx + 1 } := by
  unfold lockIter
  simp only []
  rw [if_neg (show ¬(m.lock_idx + 1 = 0) by omega),
      if_neg (show ¬(m.try_lock ≠ 0) by simp [htry]),
      if_pos howner]

/-- Claim C2 (confirmed): for an ErrorCheck mutex whose recorded owner is the
calling thread (hence, by the reachable-state invariant, `lockCounter ≥ 0`),
`lock` returns Deadlock within the first loop iteration for every fuel bound
— i.e. without waiting — and the only field change is that `lockCounter` is
exactly one greater than before the failed call: the optimistic increment is
not reverted. -/
theorem C2_errorcheck_deadlock (fuel : Nat) (alloc : Bool) (t : Tid)
    (m : MutexRec) (htype : m.type = .ErrorCheck) (howner : m.owner = some t)
    (hidx : 0 ≤ m.lock_idx) (htry : m.try_lock = 0) :
    mutex_lock (fuel + 1) alloc t (.live m) =
      some (.EDEADLK, .live { m with lock_idx := m.lock_idx + 1 }) := by
  have hiter := lockIter_ec_deadlock t m howner hidx htry
  simp only [mutex_lock, lockLoop, htype, hiter]

/-- Witness for `C2_errorcheck_deadlock` at a concrete self-owned ErrorCheck
record. -/
theorem C2_errorcheck_deadlock_witness :
    (ecRec1.type = .ErrorCheck ∧ ecRec1.owner = some 0 ∧
       0 ≤ ecRec1.lock_idx ∧ ecRec1.try_lock = 0) ∧
    mutex_lock 1 true 0 (.live ecRec1) =
      some (.EDEADLK, .live { ecRec1 with lock_idx := ecRec1.lock_idx + 1 }) :=
  ⟨by decide,
   C2_errorcheck_deadlock 0 true 0 ecRec1 (by decide) (by decide) (by decide)
     (by decide)⟩

/-- Claim C3 (confirmed): in blocking lock, when the optimistic increment
yields 0 (`lockCounter` was -1) while `waiterCount > 0` and `lastOwner` is the
calling thread: if `lastWaiter` is also the calling thread the recorded
waiters are treated as stale — `waiterCount` is reset to 0 and the caller
takes the lock, setting `owner` and `lastOwner` to itself and clearing
`lastWaiter`; otherwise the increment is undone (`lockCounter` is back to its
old value in the released state) and the caller enters the waiting path —
recording itself in `waiterCount` and `lastWaiter` — instead of taking the
lock.  This holds in every branch of the type switch. -/
theorem C3_fairness_deferral (b : MutexKind) (t : Tid) (m : MutexRec)
    (hidx : m.lock_idx = -1) (hw : 0 < m.waiters) (hlo : m.lastOwner = some t) :
    (m.lastWaiter = some t →
       lockIter b t m = .done .ok
         { m with lock_idx := 0, waiters := 0, owner := some t,
                  lastOwner := some t, lastWaiter := none }) ∧
    (m.lastWaiter ≠ some t →
       lockIter b t m = .wait
         { m with waiters := m.waiters + 1, lastWaiter := some t }) := by
  constructor
  · intro hlw
    unfold lockIter
    simp only []
    rw [if_pos (show m.lock_idx + 1 = 0 by omega),
        if_pos (show 0 < m.waiters ∧ m.lastOwner = some t from ⟨hw, hlo⟩),
        if_pos hlw]
    simp [takeLock]
    omega
  · intro hlw
    unfold lockIter
    simp only []
    rw [if_pos (show m.lock_idx + 1 = 0 by omega),
        if_pos (show 0 < m.waiters ∧ m.lastOwner = some t from ⟨hw, hlo⟩),
        if_neg hlw]
    simp [enterWait]

/-- Witness for `C3_fairness_deferral` at a concrete deferral state. -/
theorem C3_fairness_deferral_witness :
    ((C3rec.lock_idx = -1 ∧ 0 < C3rec.waiters ∧ C3rec.lastOwner = some 0) ∧
       C3rec.lastWaiter ≠ some 0) ∧
    lockIter .Normal 0 C3rec =
      .wait { C3rec with waiters := C3rec.waiters + 1, lastWaiter := some 0 } :=
  ⟨by decide,
   (C3_fairness_deferral .Normal 0 C3rec (by decide) (by decide) (by decide)).2
     (by decide)⟩

/-- Unlock by a non-owner (or on a never-locked record, whose owner is
empty): `EPERM`, record unchanged. -/
theorem mutex_unlock_eperm (t : Tid) (m : MutexRec) (h : ¬ m.owner = some t) :
    mutex_unlock t (.live m) = (.EPERM, .live m) := by
  simp only [mutex_unlock]
  rw [if_neg h]

/-- Unlock by the owner of a `Normal` or `ErrorCheck` mutex: `owner` is
cleared unconditionally and the counter decremented. -/
theorem mutex_unlock_clear (t : Tid) (m : MutexRec) (howner : m.owner = some t)
    (htype : m.type = .Normal ∨ m.type = .ErrorCheck) :
    mutex_unlock t (.live m) =
      (.ok, .live { m with owner := none, lock_idx := m.lock_idx - 1 }) := by
  simp only [mutex_unlock]
  rw [if_pos howner]
  rcases htype with h | h <;> rw [h]

/-- Unlock by the owner of a `Recursive`/`Default` mutex holding its last
outstanding lock (`lock_idx = 0`): `owner` is cleared and the counter
decremented. -/
theorem mutex_unlock_rec_last (t : Tid) (m : MutexRec) (howner : m.owner = some t)
    (hN : m.type ≠ .Normal) (hE : m.type ≠ .ErrorCheck) (hz : m.lock_idx = 0) :
    mutex_unlock t (.live m) =
      (.ok, .live { m with owner := none, lock_idx := m.lock_idx - 1 }) := by
  simp only [mutex_unlock]
  rw [if_pos howner]
  cases ht : m.type with
  | Normal => exact absurd ht hN
  | ErrorCheck => exact absurd ht hE
  | Recursive => rw [if_pos hz]
  | Default => rw [if_pos hz]

/-- Unlock by the owner of a `Recursive`/`Default` mutex with nested holds
outstanding (`lock_idx ≠ 0`): only the counter is decremented, `owner` is
kept. -/
theorem mutex_unlock_rec_nested (t : Tid) (m : MutexRec) (howner : m.owner = some t)
    (hN : m.type ≠ .Normal) (hE : m.type ≠ .ErrorCheck) (hz : ¬ m.lock_idx = 0) :
    mutex_unlock t (.live m) = (.ok, .live { m with lock_idx := m.lock_idx - 1 }) := by
  simp only [mutex_unlock]
  rw [if_pos howner]
  cases ht : m.type with
  | Normal => exact absurd ht hN
  | ErrorCheck => exact absurd ht hE
  | Recursive => rw [if_neg hz, ht]
  | Default => rw [if_neg hz, ht]

/-- Evaluation of one Recursive-branch iteration when the caller already owns
the held mutex: immediate relock, keeping the extra increment. -/
theorem lockIter_recursive_relock (t : Tid) (m : MutexRec)
    (howner : m.owner = some t) (hidx : 0 ≤ m.lock_idx) (htry : m.try_lock = 0) :
    lockIter .Recursive t m =
      .done .ok (takeLock t { m with lock_idx := m.lock_idx + 1 }) := by
  unfold lockIter
  simp only []
  rw [if_neg (show ¬(m.lock_idx + 1 = 0) by omega),
      if_neg (show ¬(m.try_lock ≠ 0) by simp [htry]),
      if_pos howner]

/-- `lockLoop` with one unit of fuel unfolded. -/
theorem lockLoop_one (b : MutexKind) (t : Tid) (m : MutexRec) :
    lockLoop 1 b t m =
      match lockIter b t m with
      | .done r m' => some (r, m')
      | .wait m' => lockLoop 0 b t (decWaiters m')
      | .stuck => none := rfl

/-- First lock of a fresh Recursive mutex: immediate success. -/
theorem lockOnce_fresh (t : Tid) :
    lockOnce t (initRecord (some (some recAttr))) = some (.ok, lockedSt t 1) := rfl

/-- Relocking an already-self-held Recursive mutex: immediate success,
counter one higher. -/
theorem lockOnce_locked (t : Tid) (j : Nat) :
    lockOnce t (lockedSt t (j + 1)) = some (.ok, lockedSt t (j + 2)) := by
  have h := lockIter_recursive_relock t (lockedSt t (j + 1)) rfl
    (by simp only [lockedSt]; omega) rfl
  unfold lockOnce
  rw [show (lockedSt t (j + 1)).type = .Recursive from rfl, lockLoop_one, h]
  simp only [Option.some.injEq, Prod.mk.injEq, true_and]
  simp [takeLock, lockedSt]
  omega

/-- Releasing a nested hold of a Recursive mutex. -/
theorem unlockOnce_nested (t : Tid) (j : Nat) :
    unlockOnce t (lockedSt t (j + 2)) = some (.ok, lockedSt t (j + 1)) := by
  have h := mutex_unlock_rec_nested t (lockedSt t (j + 2)) rfl
    (by simp [lockedSt]) (by simp [lockedSt]) (by simp only [lockedSt]; omega)
  unfold unlockOnce
  rw [h]
  simp only [Option.some.injEq, Prod.mk.injEq, true_and]
  simp [lockedSt]
  omega

/-- Releasing the last hold of a Recursive mutex: back to unlocked. -/
theorem unlockOnce_last (t : Tid) :
    unlockOnce t (lockedSt t 1) = some (.ok, unlockedSt t) := by
  have h := mutex_unlock_rec_last t (lockedSt t 1) rfl
    (by simp [lockedSt]) (by simp [lockedSt]) (by simp [lockedSt])
  unfold unlockOnce
  rw [h]
  simp only [Option.some.injEq, Prod.mk.injEq, true_and]
  simp [lockedSt, unlockedSt]

/-- `n` further locks starting from `j+1` nested holds all succeed. -/
theorem repeatLock_locked (t : Tid) (n : Nat) :
    ∀ j : Nat, repeatLock t n (lockedSt t (j + 1)) = some (lockedSt t (n + j + 1)) := by
  induction n with
  | zero =>
      intro j
      rw [Nat.zero_add]
      rfl
  | succ k ih =>
      intro j
      unfold repeatLock
      rw [lockOnce_locked t j]
      simp only []
      have h := ih (j + 1)
      rw [h]
      have : k + (j + 1) + 1 = k + 1 + j + 1 := by omega
      rw [this]

/-- `n+1` unlocks release `n+1` nested holds completely. -/
theorem repeatUnlock_all (t : Tid) :
    ∀ n : Nat, repeatUnlock t (n + 1) (lockedSt t (n + 1)) = some (unlockedSt t) := by
  intro n
  induction n with
  | zero =>
      unfold repeatUnlock
      rw [unlockOnce_last t]
      rfl
  | succ k ih =>
      unfold repeatUnlock
      rw [unlockOnce_nested t k]
      simp only []
      exact ih

/-- Claim C4 (confirmed): for a freshly initialised Recursive mutex and any
`N ≥ 1`, `N` sequential successful `lock` calls by one thread followed by `N`
`unlock` calls by that thread restore the unlocked state (`lockCounter = -1`,
`owner` empty), and the `(N+1)`-th `unlock` by that thread returns
PermissionDenied. -/
theorem C4_recursive_balance (t : Tid) (N : Nat) (hN : 1 ≤ N) :
    ∃ mheld, repeatLock t N (initRecord (some (some recAttr))) = some mheld ∧
      ∃ mfin, repeatUnlock t N mheld = some mfin ∧
        mfin.lock_idx = -1 ∧ mfin.owner = none ∧
        (mutex_unlock t (.live mfin)).1 = .EPERM := by
  obtain ⟨n, rfl⟩ : ∃ n, N = n + 1 := ⟨N - 1, by omega⟩
  refine ⟨lockedSt t (n + 1), ?_, unlockedSt t, repeatUnlock_all t n, rfl, rfl, ?_⟩
  · unfold repeatLock
    rw [lockOnce_fresh t]
    simp only []
    have h := repeatLock_locked t n 0
    simpa using h
  · rw [mutex_unlock_eperm t (unlockedSt t) (by simp [unlockedSt])]

/-- Witness for `C4_recursive_balance` at `t = 0`, `N = 2`. -/
theorem C4_recursive_balance_witness :
    1 ≤ 2 ∧
      ∃ mheld, repeatLock 0 2 (initRecord (some (some recAttr))) = some mheld ∧
        ∃ mfin, repeatUnlock 0 2 mheld = some mfin ∧
          mfin.lock_idx = -1 ∧ mfin.owner = none ∧
          (mutex_unlock 0 (.live mfin)).1 = .EPERM :=
  ⟨by decide, C4_recursive_balance 0 2 (by decide)⟩

/-- Claim C5 (confirmed): unlock returns PermissionDenied exactly when the
record is the auto-init sentinel or the caller is not the recorded owner
(including a never-locked freshly-initialised mutex, whose owner is empty),
leaving the record unchanged; otherwise it succeeds: `Normal`/`ErrorCheck`
clear `owner` unconditionally, `Recursive`/`Default` clear `owner` only if
`lockCounter` is currently 0, and `lockCounter` is then decremented
unconditionally. -/
theorem C5_unlock_behaviour (t : Tid) (m : MutexRec) :
    mutex_unlock t .autoInit = (.EPERM, .autoInit) ∧
    (m.owner ≠ some t → mutex_unlock t (.live m) = (.EPERM, .live m)) ∧
    (m.owner = some t → (m.type = .Normal ∨ m.type = .ErrorCheck) →
       mutex_unlock t (.live m) =
         (.ok, .live { m with owner := none, lock_idx := m.lock_idx - 1 })) ∧
    (m.owner = some t → m.type ≠ .Normal → m.type ≠ .ErrorCheck →
       m.lock_idx = 0 →
       mutex_unlock t (.live m) =
         (.ok, .live { m with owner := none, lock_idx := m.lock_idx - 1 })) ∧
    (m.owner = some t → m.type ≠ .Normal → m.type ≠ .ErrorCheck →
       ¬ m.lock_idx = 0 →
       mutex_unlock t (.live m) = (.ok, .live { m with lock_idx := m.lock_idx - 1 })) :=
  ⟨rfl, fun h => mutex_unlock_eperm t m h,
   fun ho ht => mutex_unlock_clear t m ho ht,
   fun ho hN hE hz => mutex_unlock_rec_last t m ho hN hE hz,
   fun ho hN hE hz => mutex_unlock_rec_nested t m ho hN hE hz⟩

/-- Witness for `C5_unlock_behaviour`: releasing the last hold of a concrete
Recursive record clears the owner and decrements the counter. -/
theorem C5_unlock_behaviour_witness :
    ((lockedSt 0 1).owner = some 0 ∧ (lockedSt 0 1).type ≠ .Normal ∧
       (lockedSt 0 1).type ≠ .ErrorCheck ∧ (lockedSt 0 1).lock_idx = 0) ∧
    mutex_unlock 0 (.live (lockedSt 0 1)) =
      (.ok, .live { (lockedSt 0 1) with owner := none,
                                        lock_idx := (lockedSt 0 1).lock_idx - 1 }) :=
  ⟨by decide,
   (C5_unlock_behaviour 0 (lockedSt 0 1)).2.2.2.1 (by decide) (by decide)
     (by decide) (by decide)⟩

/-- `pthread_mutex_trylock` body on a held mutex: `EBUSY`, record untouched. -/
theorem tryBody_busy (t : Tid) (m : MutexRec) (h : ¬(m.lock_idx + 1 = 0)) :
    tryBody t m = (.EBUSY, .live m) := by
  unfold tryBody
  rw [if_neg h]

/-- `pthread_mutex_trylock` body on an unheld mutex: ownership committed. -/
theorem tryBody_commit (t : Tid) (m : MutexRec) (h : m.lock_idx = -1) :
    tryBody t m = (.ok, .live { m with lock_idx := 0, owner := some t,
                                       lastOwner := some t, lastWaiter := none }) := by
  unfold tryBody
  simp only []
  rw [if_pos (show m.lock_idx + 1 = 0 by omega),
      if_pos (show m.lock_idx + 1 = 0 by omega)]
  simp [takeLock]
  omega

/-- Claim C6 (confirmed): for every mutex type, trylock on a held mutex
(`lockCounter ≥ 0`) — including one held by the calling thread itself, even
for a Recursive mutex — returns Busy and leaves the record unchanged, never
granting recursive re-entry; on an unheld mutex (`lockCounter = -1`) it
commits ownership (`owner` and `lastOwner` set to self, `lastWaiter`
cleared) and returns success. -/
theorem C6_trylock_no_reentry (alloc : Bool) (t : Tid) (m : MutexRec) :
    (0 ≤ m.lock_idx → mutex_trylock alloc t (.live m) = (.EBUSY, .live m)) ∧
    (m.lock_idx = -1 →
       mutex_trylock alloc t (.live m) =
         (.ok, .live { m with lock_idx := 0, owner := some t,
                              lastOwner := some t, lastWaiter := none })) := by
  constructor
  · intro h
    show tryBody t m = _
    exact tryBody_busy t m (by omega)
  · intro h
    show tryBody t m = _
    exact tryBody_commit t m h

/-- Witness for `C6_trylock_no_reentry`: trylock by the owner itself on a
held record returns Busy without re-entry. -/
theorem C6_trylock_no_reentry_witness :
    (0 ≤ ecRec1.lock_idx ∧ ecRec1.owner = some 0) ∧
    mutex_trylock true 0 (.live ecRec1) = (.EBUSY, .live ecRec1) :=
  ⟨by decide, (C6_trylock_no_reentry true 0 ecRec1).1 (by decide)⟩

/-- Claim C7 (counterexample): destroy on the auto-init sentinel is not a
no-op on the handle — it stores NULL, observably: a second destroy then
fails with `EINVAL` instead of succeeding again. -/
theorem C7_destroy_sentinel_counterexample :
    mutex_destroy .autoInit ≠ (.ok, .autoInit) ∧
    mutex_destroy .autoInit = (.ok, .empty) ∧
    (mutex_destroy (mutex_destroy .autoInit).2).1 = .EINVAL := by
  decide

/-- Claim C7 (amended): destroy on a null handle returns InvalidArgument; on
the uninitialised sentinel it succeeds, storing empty into the handle (so it
is not literally a no-op on the stored value); on a live record with
non-empty owner it returns Busy with the record intact, and succeeds if
retried after the holder releases its last hold; on a live record with empty
owner it succeeds, freeing the record and storing empty into the handle. -/
theorem C7_destroy (t : Tid) (m : MutexRec) :
    pthread_mutex_destroy none = (.EINVAL, none) ∧
    mutex_destroy .autoInit = (.ok, .empty) ∧
    (m.owner ≠ none → mutex_destroy (.live m) = (.EBUSY, .live m)) ∧
    (m.owner = none → mutex_destroy (.live m) = (.ok, .empty)) ∧
    (m.owner = some t → m.lock_idx = 0 →
       mutex_destroy (mutex_unlock t (.live m)).2 = (.ok, .empty)) := by
  refine ⟨rfl, rfl, ?_, ?_, ?_⟩
  · intro h
    simp only [mutex_destroy]
    rw [if_pos h]
  · intro h
    simp only [mutex_destroy]
    rw [if_neg (by simp [h])]
  · intro ho hz
    have hu : mutex_unlock t (.live m) =
        (.ok, .live { m with owner := none, lock_idx := m.lock_idx - 1 }) := by
      by_cases hNn : m.type = .Normal
      · exact mutex_unlock_clear t m ho (Or.inl hNn)
      by_cases hEe : m.type = .ErrorCheck
      · exact mutex_unlock_clear t m ho (Or.inr hEe)
      exact mutex_unlock_rec_last t m ho hNn hEe hz
    rw [hu]
    simp [mutex_destroy]

/-- Witness for `C7_destroy`: a concrete held record is Busy to destroy, and
destroy succeeds after the holder unlocks. -/
theorem C7_destroy_witness :
    (ecRec1.owner ≠ none ∧ ecRec1.owner = some 0 ∧ ecRec1.lock_idx = 0) ∧
    mutex_destroy (.live ecRec1) = (.EBUSY, .live ecRec1) ∧
    mutex_destroy (mutex_unlock 0 (.live ecRec1)).2 = (.ok, .empty) :=
  ⟨by decide, (C7_destroy 0 ecRec1).2.2.1 (by decide),
   (C7_destroy 0 ecRec1).2.2.2.2 (by decide) (by decide)⟩

/-- Claim C8 (confirmed): init on a null handle returns InvalidArgument;
with attributes whose process-shared flag is Shared it returns Unsupported
leaving the handle untouched (allocating nothing); otherwise, when the
allocation succeeds, it installs a fresh record with `lockCounter = -1`,
`owner` empty, `waiterCount = 0`, `lastOwner`/`lastWaiter` empty, type and
shared copied from the supplied attributes (with Default mapping to
Recursive), or defaulted to Private/Default(=Recursive) when no attributes
(or a null attributes pointer target) are supplied. -/
theorem C8_init (alloc : Bool) (a : MutexAttr) (v : HandleVal) :
    pthread_mutex_init alloc (some (some a)) none = (.EINVAL, none) ∧
    (a.pshared = .Shared → mutex_init alloc (some (some a)) v = (.ENOSYS, v)) ∧
    (a.pshared ≠ .Shared →
       mutex_init true (some (some a)) v =
         (.ok, .live { lock_idx := -1, try_lock := 0, owner := none, waiters := 0,
                       lastOwner := none, lastWaiter := none,
                       type := if a.type = .Default then .Recursive else a.type,
                       pshared := a.pshared })) ∧
    mutex_init true none v =
      (.ok, .live { lock_idx := -1, try_lock := 0, owner := none, waiters := 0,
                    lastOwner := none, lastWaiter := none,
                    type := .Recursive, pshared := .Private }) ∧
    mutex_init true (some none) v =
      (.ok, .live { lock_idx := -1, try_lock := 0, owner := none, waiters := 0,
                    lastOwner := none, lastWaiter := none,
                    type := .Recursive, pshared := .Private }) := by
  refine ⟨rfl, ?_, ?_, rfl, rfl⟩
  · intro h
    simp [mutex_init, attrIsShared, h]
  · intro h
    simp [mutex_init, attrIsShared, h, initRecord, ptw32_mutex_mapped_default]

/-- Witness for `C8_init`: the Shared rejection and a successful ErrorCheck
installation at concrete attributes. -/
theorem C8_init_witness :
    (shAttr.pshared = .Shared ∧ ecAttr.pshared ≠ .Shared) ∧
    mutex_init false (some (some shAttr)) .autoInit = (.ENOSYS, .autoInit) ∧
    mutex_init true (some (some ecAttr)) .empty =
      (.ok, .live { lock_idx := -1, try_lock := 0, owner := none, waiters := 0,
                    lastOwner := none, lastWaiter := none,
                    type := if ecAttr.type = .Default then .Recursive else ecAttr.type,
                    pshared := ecAttr.pshared }) :=
  ⟨by decide, (C8_init false shAttr .autoInit).2.1 (by decide),
   (C8_init true ecAttr .empty).2.2.1 (by decide)⟩

/-- Claim C9 (confirmed): a lock or trylock observing the auto-init sentinel
behaves exactly as Init with default attributes followed by the same call on
the installed record (the refinement equalities below hold definitionally,
i.e. under the same slot acquisition in the boundary model); hence a
sentinel-declared, never-explicitly-initialised mutex succeeds on its first
lock — absent allocation failure, which yields OutOfMemory and stores an
empty handle — and carries the Default(=Recursive) type thereafter. -/
theorem C9_autoinit (fuel : Nat) (t : Tid) :
    mutex_lock fuel true t .autoInit =
      mutex_lock fuel true t (mutex_init true none .autoInit).2 ∧
    mutex_lock (fuel + 1) true t .autoInit =
      some (.ok, .live { lock_idx := 0, try_lock := 0, owner := some t, waiters := 0,
                         lastOwner := some t, lastWaiter := none,
                         type := .Recursive, pshared := .Private }) ∧
    mutex_lock fuel false t .autoInit = some (.ENOMEM, .empty) ∧
    mutex_trylock true t .autoInit =
      mutex_trylock true t (mutex_init true none .autoInit).2 ∧
    mutex_trylock true t .autoInit =
      (.ok, .live { lock_idx := 0, try_lock := 0, owner := some t, waiters := 0,
                    lastOwner := some t, lastWaiter := none,
                    type := .Recursive, pshared := .Private }) ∧
    mutex_trylock false t .autoInit = (.ENOMEM, .empty) := by
  exact ⟨rfl, rfl, rfl, rfl, rfl, rfl⟩

/-- Claim C10 (code bug): `pthread_mutexattr_init` is not total on the
allocation-failure path: the field writes and the store through the output
pointer are performed unconditionally, so when the allocation fails the
function dereferences the NULL record (modelled as `none`) instead of
returning OutOfMemory with the record untouched; on allocation success it
returns ok and stores the default attributes. -/
theorem C10_attr_init_unconditional_store :
    pthread_mutexattr_init false = none ∧
    pthread_mutexattr_init true =
      some (.ok, some { pshared := .Private, type := .Default }) := by
  decide

end PthreadsWin32
